import Mathlib

/-!
Shallow embedding of the device state-synchronization engine of the
Tractive pet-tracker Homey app, translated from the repository sources:
`lib/Device.js`, `lib/TrackerDevice.js`, `drivers/tracker/device.js` and
the historical device iterations (`src/unnamed/part_004`,
`src/unnamed/part_005`). JavaScript objects are embedded as structures of
optional fields, numbers as rationals, fallible calls as `Except`.
-/

namespace Tractive

/-- Modelled from the spec: `lib/Utils.js` is required by every source file
but is not part of the provided sources. Per the spec a value is blank when
it is absent (null or undefined) or empty; for strings this means the empty
string. -/
def blankS : Option String → Bool
  | none => true
  | some s => s = ""

/-- Modelled from the spec: `filled` from `lib/Utils.js` is the negation of
`blank`. -/
def filledS (v : Option String) : Bool := !(blankS v)

/-- JavaScript `a || b` on string-or-null operands: returns `a` when truthy
(present and non-empty), otherwise `b`. -/
def jsOr (a b : Option String) : Option String :=
  match a with
  | some s => if s = "" then b else some s
  | none => b

/-- JavaScript `a || b || null`: a falsy final result is coerced to null. -/
def jsOrNull (a b : Option String) : Option String :=
  match jsOr a b with
  | some s => if s = "" then none else some s
  | none => none

/-- JavaScript `x || ""` on a string-or-absent operand. -/
def jsStr (o : Option String) : String :=
  match o with
  | some s => s
  | none => ""

/-- JavaScript `toLowerCase`, embedded over the character list so that it
evaluates by kernel reduction. -/
def strLower (s : String) : String := String.mk (s.data.map Char.toLower)

/-- JavaScript `toUpperCase`, embedded over the character list. -/
def strUpper (s : String) : String := String.mk (s.data.map Char.toUpper)

/-- JavaScript `trim`, embedded over the character list: drop whitespace
from both ends. -/
def strTrim (s : String) : String :=
  String.mk (((s.data.dropWhile Char.isWhitespace).reverse.dropWhile Char.isWhitespace).reverse)

/-- A `{ active: bool }` control sub-object of a vendor payload
(`buzzer_control`, `led_control`, `live_tracking`). -/
structure RawControl where
  active : Bool
deriving Repr, DecidableEq

/-- The `hardware` sub-object of a vendor payload. -/
structure RawHardware where
  battery_level : Option ℚ := none
deriving Repr, DecidableEq

/-- The `position` sub-object of a vendor payload. -/
structure RawPosition where
  altitude : Option ℚ := none
  sensor_used : Option String := none
  latlong : Option (ℚ × ℚ) := none
  speed : Option ℚ := none
deriving Repr, DecidableEq

/-- A geofence entry as delivered by the vendor (the bookkeeping fields
deleted by `saveGeofences` before storing are not modelled; the fields the
code reads are). -/
structure RawFence where
  name : String
  shape : String
  fence_type : String
  coords : List (ℚ × ℚ) := []
  radius : ℚ := 0
  active : Bool := true
deriving Repr, DecidableEq

/-- A Power Saving Zone entry as delivered by the vendor. The spec gives
zones the same lifecycle as geofences, whose entries carry an `active`
flag; `savePowerSavingZones` reads only `_id` and `name`. -/
structure RawZone where
  _id : String
  name : String
  active : Bool := true
deriving Repr, DecidableEq

/-- A raw vendor payload, covering both the poll shape (`state`,
`state_reason`) and the stream shape (`tracker_state`,
`tracker_state_reason`). The list-valued sections can be present with a
null value, hence the nested options. -/
structure Raw where
  battery_state : Option String := none
  capabilities : Option (List String) := none
  buzzer_control : Option RawControl := none
  charging_state : Option String := none
  geofences : Option (Option (List RawFence)) := none
  hardware : Option RawHardware := none
  led_control : Option RawControl := none
  live_tracking : Option RawControl := none
  model_number : Option String := none
  hw_edition : Option String := none
  sku : Option String := none
  position : Option RawPosition := none
  power_saving_zones : Option (Option (List RawZone)) := none
  power_saving_zone_id : Option String := none
  tracker_state : Option String := none
  state : Option String := none
  tracker_state_reason : Option String := none
  state_reason : Option String := none
deriving Repr, DecidableEq

/-- The normalized record produced by `parseData`. A `none` outer option
means the field is absent from the JavaScript object; for
`power_saving_zone_id` the inner option distinguishes a present null. -/
structure PState where
  battery_state : Option String := none
  capabilities : Option (List String) := none
  buzzer_control : Option Bool := none
  charging_state : Option Bool := none
  geofences : Option (Option (List RawFence)) := none
  measure_battery : Option ℚ := none
  led_control : Option Bool := none
  live_tracking : Option Bool := none
  model_name : Option String := none
  product_name : Option String := none
  altitude : Option ℚ := none
  location_source : Option String := none
  latlong : Option (ℚ × ℚ) := none
  speed : Option ℚ := none
  power_saving_zones : Option (Option (List RawZone)) := none
  power_saving_zone_id : Option (Option String) := none
  tracker_state : Option String := none
  tracker_state_reason : Option String := none
deriving Repr, DecidableEq

/-- `parseData` from `lib/Device.js` lines 205 to 316 (the same function
appears in the historical iteration `src/unnamed/part_005` lines 28 to
139). The static lookup tables `TrackerNamesBySku` and `TrackerNames` live
in `lib/Enums.js`, which is not among the provided sources; they are taken
as parameters `bySku` and `byModel`, matching the spec: a static SKU/model
to product-name lookup whose unresolvable combinations yield the sentinel
placeholder `-`. -/
def parseData (bySku byModel : String → Option String) (raw : Raw) : PState :=
  let model_name : Option String :=
    match raw.model_number with
    | none => none
    | some m =>
      match raw.hw_edition with
      | some e => if e = "" then some m else some (m ++ "_" ++ e)
      | none => some m
  let product_name : Option String :=
    match raw.model_number with
    | none => none
    | some _ =>
      let looked : Option String :=
        match raw.sku with
        | some k =>
          if k = "" then (match model_name with | some mn => byModel mn | none => none)
          else bySku k
        | none => match model_name with | some mn => byModel mn | none => none
      some (match looked with
        | some p => if p = "" then "-" else p
        | none => "-")
  let stateRaw := jsOrNull raw.tracker_state raw.state
  let reasonRaw := jsOrNull raw.tracker_state_reason raw.state_reason
  let trackerState : Option String :=
    match reasonRaw with
    | some r =>
      if strLower r = "power_saving" then some "power_saving"
      else stateRaw.map strLower
    | none => stateRaw.map strLower
  { battery_state := raw.battery_state.map strLower
    capabilities := raw.capabilities
    buzzer_control := raw.buzzer_control.map RawControl.active
    charging_state := raw.charging_state.map (fun s => s = "CHARGING")
    geofences := raw.geofences
    measure_battery := raw.hardware.bind RawHardware.battery_level
    led_control := raw.led_control.map RawControl.active
    live_tracking := raw.live_tracking.map RawControl.active
    model_name := model_name
    product_name := product_name
    altitude := raw.position.bind RawPosition.altitude
    location_source := (raw.position.bind RawPosition.sensor_used).map strLower
    latlong := raw.position.bind RawPosition.latlong
    speed := raw.position.map (fun p => match p.speed with | some v => v | none => 0)
    power_saving_zones := raw.power_saving_zones
    power_saving_zone_id := some (match raw.power_saving_zone_id with
      | some s => if s = "" then none else some s
      | none => none)
    tracker_state := trackerState
    tracker_state_reason := reasonRaw.map strLower }

/-- A reverse-geocoded address as returned by the vendor client
(`Client.js` `getAddress`); fields may be absent. -/
structure RawAddress where
  house_number : Option String := none
  zip_code : Option String := none
  country : Option String := none
  street : Option String := none
  city : Option String := none
deriving Repr, DecidableEq

/-- The normalized address built by `parseChannelData` in
`drivers/tracker/device.js`. -/
structure Address where
  house_number : String
  zip_code : String
  country : String
  street : String
  city : String
deriving Repr, DecidableEq

/-- The record produced by `parseChannelData` in
`drivers/tracker/device.js`. -/
structure ChanData where
  altitude : Option ℚ := none
  latitude : Option ℚ := none
  longitude : Option ℚ := none
  address : Option Address := none
  speed : Option ℚ := none
  battery_state : Option String := none
  buzzer_control : Option Bool := none
  charging_state : Option Bool := none
  measure_battery : Option ℚ := none
  led_control : Option Bool := none
  live_tracking : Option Bool := none
  power_saving_zone : Option Bool := none
  tracker_state : Option String := none
  tracker_state_reason : Option String := none
deriving Repr, DecidableEq

/-- `parseChannelData` from `drivers/tracker/device.js` lines 27 to 124.
`storedLat` and `storedLong` are the current `latitude` and `longitude`
capability values; `getAddress` is the vendor client lookup, whose failure
is not guarded here and therefore propagates. -/
def parseChannelData (storedLat storedLong : Option ℚ)
    (getAddress : ℚ → ℚ → Except String RawAddress) (raw : Raw) :
    Except String ChanData :=
  let common : ChanData :=
    { battery_state := raw.battery_state.map strLower
      buzzer_control := raw.buzzer_control.map RawControl.active
      charging_state := raw.charging_state.map (fun s => s = "CHARGING")
      measure_battery := raw.hardware.bind RawHardware.battery_level
      led_control := raw.led_control.map RawControl.active
      live_tracking := raw.live_tracking.map RawControl.active
      power_saving_zone := some (match raw.power_saving_zone_id with
        | some s => filledS (some s)
        | none => false)
      tracker_state :=
        match raw.tracker_state_reason with
        | some r =>
          if strLower r = "power_saving" then some "power_saving"
          else raw.tracker_state.map strLower
        | none => raw.tracker_state.map strLower
      tracker_state_reason := raw.tracker_state_reason.map strLower }
  match raw.position with
  | none => Except.ok common
  | some p =>
    let c1 : ChanData :=
      { common with
        altitude := p.altitude
        speed := some (match p.speed with | some v => v | none => 0) }
    match p.latlong with
    | none => Except.ok c1
    | some ll =>
      let c2 : ChanData := { c1 with latitude := some ll.1, longitude := some ll.2 }
      if storedLat ≠ some ll.1 ∨ storedLong ≠ some ll.2 then
        match getAddress ll.1 ll.2 with
        | Except.error e => Except.error e
        | Except.ok a =>
          let addr : Address :=
            { house_number := strLower (jsStr a.house_number)
              zip_code := strUpper (jsStr a.zip_code)
              country := strUpper (jsStr a.country)
              street := strLower (jsStr a.street)
              city := strLower (jsStr a.city) }
          Except.ok { c2 with address := some addr }
      else Except.ok c2

/-- Modelled from the spec: the containment predicates of the external
`geolib` package. The circle test holds when the great-circle distance from
the center is within the radius; the polygon test is standard
point-in-polygon containment. They are kept abstract, as the claims only
depend on how `getGeofence` dispatches on and sequences them. -/
structure Geo where
  withinRadius : (ℚ × ℚ) → (ℚ × ℚ) → ℚ → Bool
  inPolygon : (ℚ × ℚ) → List (ℚ × ℚ) → Bool

/-- The result of `getGeofence`: a matched stored fence, or the neutral
no-fence value with empty name and null fence type. -/
structure GeofenceHit where
  name : String
  fence_type : Option String
deriving Repr, DecidableEq

/-- Whether one stored fence contains the point, exactly as the loop body
of `getGeofence` tests it: the circle test for shape `circle` (the center
is the first coordinate pair; a missing center makes the distance
comparison fail), the polygon test for shapes `rectangle` and `polygon`,
and no match for any other shape. -/
def fenceContains (g : Geo) (c : ℚ × ℚ) (f : RawFence) : Bool :=
  (f.shape == "circle" && (match f.coords.head? with
    | some c0 => g.withinRadius c c0 f.radius
    | none => false))
  || ((f.shape == "rectangle" || f.shape == "polygon") && g.inPolygon c f.coords)

/-- The fence loop of `getGeofence` from `lib/Device.js` lines 421 to 446:
return the first fence whose shape-specific containment test succeeds. -/
def getGeofenceList (g : Geo) (c : ℚ × ℚ) : List RawFence → GeofenceHit
  | [] => { name := "", fence_type := none }
  | f :: rest =>
    if f.shape == "circle" && (match f.coords.head? with
        | some c0 => g.withinRadius c c0 f.radius
        | none => false) then
      { name := f.name, fence_type := some f.fence_type }
    else if (f.shape == "rectangle" || f.shape == "polygon") && g.inPolygon c f.coords then
      { name := f.name, fence_type := some f.fence_type }
    else getGeofenceList g c rest

/-- `getGeofence` from `lib/Device.js` lines 418 to 454: iterate over the
cached fences (`getStoreValue` with a null store defaulting to the empty
list) and fall back to the neutral result. -/
def getGeofence (g : Geo) (store : Option (List RawFence)) (c : ℚ × ℚ) : GeofenceHit :=
  getGeofenceList g c (store.getD [])

/-- The per-fence normalization applied by `saveGeofences` before storing:
shape and fence type lower-cased, name trimmed. -/
def normalizeFence (f : RawFence) : RawFence :=
  { f with shape := strLower f.shape, name := strTrim f.name, fence_type := strLower f.fence_type }

/-- `saveGeofences` from `lib/Device.js` lines 456 to 493: the new store
value that `setStoreValue` writes, replacing the previous cache wholesale.
A blank payload (null or empty list) clears the cache; otherwise only
active entries with a filled name are kept, normalized. -/
def saveGeofences (raw : Option (List RawFence)) : List RawFence :=
  match raw with
  | none => []
  | some l =>
    if l.isEmpty then []
    else (l.filter (fun e => e.active && filledS (some e.name))).map normalizeFence

/-- JavaScript object property assignment `zones[k] = v` on an object kept
as an insertion-ordered association list: overwrite the value when the key
exists, otherwise append. -/
def objInsert (m : List (String × String)) (k v : String) : List (String × String) :=
  if m.any (fun p => p.1 = k) then m.map (fun p => if p.1 = k then (k, v) else p)
  else m ++ [(k, v)]

/-- `savePowerSavingZones` from `lib/Device.js` lines 522 to 543: the new
store value, replacing the previous cache wholesale. A blank payload
clears the cache; entries with a blank name are skipped, the rest are
stored as id to trimmed-name, with no filter on `active`. -/
def savePowerSavingZones (raw : Option (List RawZone)) : List (String × String) :=
  match raw with
  | none => []
  | some l =>
    if l.isEmpty then []
    else l.foldl
      (fun zones z => if blankS (some z.name) then zones else objInsert zones z._id (strTrim z.name))
      []

/-- JavaScript object property read `zones[id]` on the association-list
embedding of an object. -/
def lookupZone (zones : List (String × String)) (id : String) : Option String :=
  (zones.find? (fun p => p.1 == id)).map Prod.snd

/-- The `(zone.name || "").trim()` result of a vendor zone lookup. -/
def apiZoneName (api : String → Except String RawZone) (i : String) : Except String String :=
  match api i with
  | Except.ok z => Except.ok (strTrim z.name)
  | Except.error e => Except.error e

/-- `getPowerSavingZoneName` from `lib/Device.js` lines 500 to 520: a blank
id yields the empty name; otherwise the store is consulted first, and on a
miss the vendor lookup is performed with its failure caught and degraded
to the empty name. -/
def getPowerSavingZoneName (api : String → Except String RawZone)
    (store : Option (List (String × String))) (id : Option String) : String :=
  match id with
  | none => ""
  | some i =>
    if i = "" then ""
    else
      match lookupZone (store.getD []) i with
      | some n =>
        if n ≠ "" then n
        else (match apiZoneName api i with | Except.ok s => s | Except.error _ => "")
      | none => (match apiZoneName api i with | Except.ok s => s | Except.error _ => "")

/-- `getPowerSavingZoneName` from the historical iteration
`src/unnamed/part_005` lines 377 to 391: identical except the vendor
lookup is not guarded, so its failure propagates. -/
def getPowerSavingZoneNameLegacy (api : String → Except String RawZone)
    (store : Option (List (String × String))) (id : Option String) :
    Except String String :=
  match id with
  | none => Except.ok ""
  | some i =>
    if i = "" then Except.ok ""
    else
      match lookupZone (store.getD []) i with
      | some n => if n ≠ "" then Except.ok n else apiZoneName api i
      | none => apiZoneName api i

/-- The external collaborators and stored device state read by
`processData`: the geolib predicates, the current `latitude` and
`longitude` capability values, the per-device store, the reverse-geocode
lookup and the single-zone lookup of the vendor client. -/
structure ProcDeps where
  geo : Geo
  storedLat : Option ℚ := none
  storedLong : Option ℚ := none
  geofenceStore : Option (List RawFence) := none
  pszStore : Option (List (String × String)) := none
  getAddress : ℚ → ℚ → Except String RawAddress
  getPowerSavingZone : String → Except String RawZone

/-- The enriched record produced by `processData`: the parsed record (with
`latlong` deleted) plus the zone and geofence enrichment fields, each
present only when set. -/
structure EState where
  base : PState
  power_saving_zone : String
  in_power_saving_zone : Bool
  address : Option RawAddress := none
  geofence : Option String := none
  in_geofence : Option Bool := none
  geofence_type : Option (Option String) := none
  latitude : Option ℚ := none
  longitude : Option ℚ := none
deriving Repr, DecidableEq

/-- The result of one `processData` run: the enriched record together with
the per-device store values after the wholesale cache replacements. -/
structure ProcResult where
  data : EState
  geofenceStoreAfter : Option (List RawFence)
  pszStoreAfter : Option (List (String × String))
deriving Repr, DecidableEq

/-- `processData` from `lib/Device.js` lines 319 to 372: replace the
caches for the payload sections that are present, resolve the Power Saving
Zone name and membership, and, only when the coordinates changed from the
stored capability values, resolve the address (failure caught, the field
dropped) and the geofence membership. -/
def processData (dp : ProcDeps) (d : PState) : ProcResult :=
  let geoAfter : Option (List RawFence) :=
    match d.geofences with
    | some payload => some (saveGeofences payload)
    | none => dp.geofenceStore
  let pszAfter : Option (List (String × String)) :=
    match d.power_saving_zones with
    | some payload => some (savePowerSavingZones payload)
    | none => dp.pszStore
  let pszId : Option String := d.power_saving_zone_id.join
  let zoneName := getPowerSavingZoneName dp.getPowerSavingZone pszAfter pszId
  let inPsz := filledS pszId
  match d.latlong with
  | none =>
    { data := { base := d, power_saving_zone := zoneName, in_power_saving_zone := inPsz }
      geofenceStoreAfter := geoAfter
      pszStoreAfter := pszAfter }
  | some ll =>
    if dp.storedLat ≠ some ll.1 ∨ dp.storedLong ≠ some ll.2 then
      let addr : Option RawAddress :=
        match dp.getAddress ll.1 ll.2 with
        | Except.ok a => some a
        | Except.error _ => none
      let hit := getGeofence dp.geo geoAfter ll
      { data :=
          { base := { d with latlong := none }
            power_saving_zone := zoneName
            in_power_saving_zone := inPsz
            address := addr
            geofence := some hit.name
            in_geofence := some (filledS (some hit.name))
            geofence_type := some hit.fence_type
            latitude := some ll.1
            longitude := some ll.2 }
        geofenceStoreAfter := geoAfter
        pszStoreAfter := pszAfter }
    else
      { data :=
          { base := { d with latlong := none }
            power_saving_zone := zoneName
            in_power_saving_zone := inPsz }
        geofenceStoreAfter := geoAfter
        pszStoreAfter := pszAfter }

/-- `processData` from the historical TrackerDevice iteration
`src/unnamed/part_005` lines 141 to 189: same control flow as the
`lib/Device.js` version, but neither the zone lookup nor the address
lookup is guarded, so either failure aborts the whole enrichment. -/
def processDataLegacy (dp : ProcDeps) (d : PState) : Except String ProcResult :=
  let geoAfter : Option (List RawFence) :=
    match d.geofences with
    | some payload => some (saveGeofences payload)
    | none => dp.geofenceStore
  let pszAfter : Option (List (String × String)) :=
    match d.power_saving_zones with
    | some payload => some (savePowerSavingZones payload)
    | none => dp.pszStore
  let pszId : Option String := d.power_saving_zone_id.join
  match getPowerSavingZoneNameLegacy dp.getPowerSavingZone pszAfter pszId with
  | Except.error e => Except.error e
  | Except.ok zoneName =>
    let inPsz := filledS pszId
    match d.latlong with
    | none =>
      Except.ok
        { data := { base := d, power_saving_zone := zoneName, in_power_saving_zone := inPsz }
          geofenceStoreAfter := geoAfter
          pszStoreAfter := pszAfter }
    | some ll =>
      if dp.storedLat ≠ some ll.1 ∨ dp.storedLong ≠ some ll.2 then
        match dp.getAddress ll.1 ll.2 with
        | Except.error e => Except.error e
        | Except.ok a =>
          let hit := getGeofence dp.geo geoAfter ll
          Except.ok
            { data :=
                { base := { d with latlong := none }
                  power_saving_zone := zoneName
                  in_power_saving_zone := inPsz
                  address := some a
                  geofence := some hit.name
                  in_geofence := some (filledS (some hit.name))
                  geofence_type := some hit.fence_type
                  latitude := some ll.1
                  longitude := some ll.2 }
              geofenceStoreAfter := geoAfter
              pszStoreAfter := pszAfter }
      else
        Except.ok
          { data :=
              { base := { d with latlong := none }
                power_saving_zone := zoneName
                in_power_saving_zone := inPsz }
            geofenceStoreAfter := geoAfter
            pszStoreAfter := pszAfter }

/-- The warning side effect decided by `syncWarning`: set a warning keyed
by a reason, clear any warning, or leave the warning state untouched. -/
inductive WarnAction where
  | set (reason : String)
  | unset
  | noop
deriving Repr, DecidableEq

/-- The fixed terminal and degraded reason list of `lib/Device.js`
`syncWarning`. -/
def warningReasons : List String := ["not_reporting", "out_of_battery", "shutdown_by_user"]

/-- `syncWarning` from `lib/Device.js` lines 113 to 129: the key is the
effective state `data.tracker_state || data.tracker_state_reason || null`;
a blank effective state returns early without touching the warning. -/
def syncWarning (tracker_state tracker_state_reason : Option String) : WarnAction :=
  match jsOrNull tracker_state tracker_state_reason with
  | none => WarnAction.noop
  | some s =>
    if warningReasons.contains s then WarnAction.set s
    else WarnAction.unset

/-- `syncWarning` from `lib/TrackerDevice.js` lines 122 to 135: keyed on
`tracker_state_reason` alone, with a reason list that omits
`not_reporting`; every non-matching case clears the warning. -/
def syncWarningTracker (tracker_state_reason : Option String) : WarnAction :=
  match tracker_state_reason with
  | some r =>
    if r ≠ "" then
      (if ["out_of_battery", "shutdown_by_user"].contains r then WarnAction.set r
       else WarnAction.unset)
    else WarnAction.unset
  | none => WarnAction.unset

/-- A capability value as stored by the platform. -/
inductive CapValue where
  | str (v : String)
  | boolean (v : Bool)
  | num (v : ℚ)
  | nullV
deriving Repr, DecidableEq

/-- `syncCapabilityValues` from `lib/Device.js` lines 174 to 182 (the same
function appears in `src/unnamed/part_004` lines 82 to 90): the list of
`setCapabilityValue` writes issued for one enriched snapshot, one per
snapshot entry whose name the device declares, with no comparison against
the stored value. -/
def syncCapabilityValues (caps : List String) (data : List (String × CapValue)) :
    List (String × CapValue) :=
  data.filter (fun p => caps.contains p.1)

/-- One platform `setCapabilityValue` write applied to the capability
store. -/
def setCapabilityValue (store : String → Option CapValue) (name : String) (v : CapValue) :
    String → Option CapValue :=
  fun k => if k = name then some v else store k

/-- Apply a list of capability writes in order. -/
def applyWrites (store : String → Option CapValue) (writes : List (String × CapValue)) :
    String → Option CapValue :=
  writes.foldl (fun st p => setCapabilityValue st p.1 p.2) store

/-- The last value written to a key by a list of writes, if any. -/
def lastWrite (writes : List (String × CapValue)) (k : String) : Option CapValue :=
  writes.foldl (fun acc p => if p.1 = k then some p.2 else acc) none

/-- The availability action taken by one `checkKeepAlive` evaluation. -/
inductive KeepAliveOutcome where
  | markAvailable
  | noChange
  | unregisterStream
  | markUnavailableRestart
deriving Repr, DecidableEq

/-- `checkKeepAlive` from `src/unnamed/part_004` lines 202 to 229,
evaluated at an elapsed-seconds difference and the current availability:
a difference of at most 10 ensures the device is available; an
unavailable device is otherwise left alone; a difference between 60 and
75 unregisters the shared stream; every remaining case (the final
statement, commented in the source as the over-one-minute case) marks the
device unavailable with the restart-required reason. -/
def checkKeepAlive (difference : Int) (available : Bool) : KeepAliveOutcome :=
  if difference ≤ 10 then
    (if available = false then KeepAliveOutcome.markAvailable else KeepAliveOutcome.noChange)
  else if available = false then KeepAliveOutcome.noChange
  else if 60 ≤ difference ∧ difference ≤ 75 then KeepAliveOutcome.unregisterStream
  else KeepAliveOutcome.markUnavailableRestart

/-- A buzzer, LED or LIVE-tracking command forwarded to the vendor client
by a device action. -/
structure VendorCommand where
  command : String
  enabled : Bool
deriving Repr, DecidableEq

/-- `setBuzzer` from `lib/Device.js` lines 394 to 400: enabling while the
stored `tracker_state` capability value is `power_saving` throws the
localized power-saving error before any vendor command is sent. -/
def setBuzzer (trackerState : Option String) (enabled : Bool) : Except String VendorCommand :=
  if enabled && (trackerState == some "power_saving") then
    Except.error "error.power_saving_sound"
  else Except.ok { command := "buzzer_control", enabled := enabled }

/-- `setLight` from `lib/TrackerDevice.js` lines 149 to 155: same guard as
`setBuzzer`, with the light error key. -/
def setLight (trackerState : Option String) (enabled : Bool) : Except String VendorCommand :=
  if enabled && (trackerState == some "power_saving") then
    Except.error "errors.power_saving_light"
  else Except.ok { command := "led_control", enabled := enabled }

/-- `setLive` from `lib/Device.js` lines 410 to 412: always forwards the
command, with no power-saving guard. -/
def setLive (trackerState : Option String) (enabled : Bool) : Except String VendorCommand :=
  Except.ok { command := "live_tracking", enabled := enabled }

/-- The dependencies of one sync cycle: the parse lookup tables, the
`processData` dependencies, and the awaited platform promises that can
reject inside the guarded block of `handleSyncData` (`driver.ready` in
`triggerFlows`, and the `setWarning` or `unsetWarning` result returned by
`syncWarning`). The remaining platform calls of the sync steps are guarded
by catch in the source and cannot throw. -/
structure SyncDeps where
  bySku : String → Option String
  byModel : String → Option String
  proc : ProcDeps
  driverReady : Except String Unit
  warnSet : String → Except String Unit
  warnUnset : Except String Unit

/-- The guarded block of `handleSyncData` from `lib/Device.js` lines 93 to
102: parse, process, then the sync steps in order, propagating the first
rejection. -/
def syncPipeline (dp : SyncDeps) (raw : Raw) : Except String ProcResult := do
  let parsed := parseData dp.bySku dp.byModel raw
  let pr := processData dp.proc parsed
  dp.driverReady
  match syncWarning pr.data.base.tracker_state pr.data.base.tracker_state_reason with
  | WarnAction.set s => dp.warnSet s
  | WarnAction.unset => dp.warnUnset
  | WarnAction.noop => pure ()
  pure pr

/-- The availability side effect of one `handleSyncData` run. -/
inductive AvailAction where
  | setAvailable
  | setUnavailable (reason : String)
  | idle
deriving Repr, DecidableEq

/-- `handleSyncData` from `lib/Device.js` lines 87 to 111 (and, with the
same control flow, `src/unnamed/part_004` lines 54 to 79): a blank payload
returns early; otherwise the guarded pipeline runs, success marks the
device available, and any rejection is caught here and marks the device
unavailable with the message of the error. The function is total: no
error leaves it. -/
def handleSyncData (dp : SyncDeps) (raw : Option Raw) : AvailAction :=
  match raw with
  | none => AvailAction.idle
  | some r =>
    match syncPipeline dp r with
    | Except.ok _ => AvailAction.setAvailable
    | Except.error m => AvailAction.setUnavailable m

/-- A trivial geolib instance whose containment tests never match, used
for concrete evaluations. -/
def geoNone : Geo :=
  { withinRadius := fun _ _ _ => false, inPolygon := fun _ _ => false }

/-- Concrete `processData` dependencies for evaluations: empty device
state, an address lookup that succeeds with an empty address, a zone
lookup that fails. -/
def procDeps0 : ProcDeps :=
  { geo := geoNone
    getAddress := fun _ _ => Except.ok {}
    getPowerSavingZone := fun _ => Except.error "not_found" }

/-- Concrete `processData` dependencies whose address lookup fails. -/
def procDepsAddrFail : ProcDeps :=
  { geo := geoNone
    getAddress := fun _ _ => Except.error "boom"
    getPowerSavingZone := fun _ => Except.error "not_found" }

/-- Concrete sync dependencies where every platform promise resolves. -/
def syncDeps0 : SyncDeps :=
  { bySku := fun _ => none
    byModel := fun _ => none
    proc := procDeps0
    driverReady := Except.ok ()
    warnSet := fun _ => Except.ok ()
    warnUnset := Except.ok () }

/-- Concrete sync dependencies where the `driver.ready` promise of
`triggerFlows` rejects. -/
def syncDepsFail : SyncDeps :=
  { syncDeps0 with driverReady := Except.error "down" }

/-- C2 (evaluation of the embedded code at the claimed transitions and at
the failing input): a difference of 9 seconds keeps or restores
availability with no reconnect, 65 seconds forces the stream unregister
with the device left available, 90 seconds marks the device unavailable
with the restart-required reason — but a difference of 30 seconds, which
the claim (and the over-one-minute comment in the source) places in the
tolerate-silently band, already marks the device unavailable: the
10-to-60-second gap falls through to the final `setUnavailable`. -/
theorem checkKeepAlive_transitions :
    checkKeepAlive 9 false = KeepAliveOutcome.markAvailable ∧
    checkKeepAlive 9 true = KeepAliveOutcome.noChange ∧
    checkKeepAlive 65 true = KeepAliveOutcome.unregisterStream ∧
    checkKeepAlive 90 true = KeepAliveOutcome.markUnavailableRestart ∧
    checkKeepAlive 30 true = KeepAliveOutcome.markUnavailableRestart := by
  refine ⟨rfl, rfl, ?_, ?_, ?_⟩ <;> decide

/-- C10: enabling the buzzer or the light while the stored `tracker_state`
capability value is `power_saving` throws the localized error with no
vendor command sent; disabling either is never blocked, and `setLive` is
never blocked, whatever the stored state. -/
theorem power_saving_guard :
    setBuzzer (some "power_saving") true = Except.error "error.power_saving_sound" ∧
    setLight (some "power_saving") true = Except.error "errors.power_saving_light" ∧
    (∀ st, setBuzzer st false = Except.ok { command := "buzzer_control", enabled := false }) ∧
    (∀ st, setLight st false = Except.ok { command := "led_control", enabled := false }) ∧
    (∀ st b, setLive st b = Except.ok { command := "live_tracking", enabled := b }) := by
  refine ⟨rfl, rfl, fun st => rfl, fun st => rfl, fun st b => rfl⟩

/-- The geofence loop is exactly first-match search with the per-fence
containment test. -/
theorem getGeofenceList_eq_find (g : Geo) (c : ℚ × ℚ) (l : List RawFence) :
    getGeofenceList g c l =
      match l.find? (fenceContains g c) with
      | some f => { name := f.name, fence_type := some f.fence_type }
      | none => { name := "", fence_type := none } := by
  induction l with
  | nil => rfl
  | cons f rest ih =>
    cases hf : fenceContains g c f with
    | true =>
      have hf' := hf
      rw [fenceContains, Bool.or_eq_true] at hf'
      rw [List.find?_cons_of_pos _ hf]
      cases hA : (f.shape == "circle" && (match f.coords.head? with
          | some c0 => g.withinRadius c c0 f.radius
          | none => false)) with
      | true => simp [getGeofenceList, hA]
      | false =>
        have hB : ((f.shape == "rectangle" || f.shape == "polygon")
            && g.inPolygon c f.coords) = true := by
          rcases hf' with h | h
          · exact absurd h (by simp [hA])
          · exact h
        simp [getGeofenceList, hA, hB]
    | false =>
      have hf' := hf
      rw [fenceContains, Bool.or_eq_false_iff] at hf'
      rw [List.find?_cons_of_neg _ (by simp [hf])]
      simp [getGeofenceList, hf'.1, hf'.2, ih]

/-- C3: geofence resolution returns the first cached fence, in cache
(insertion) order, whose shape-specific containment test holds for the
coordinates — so with two overlapping fences cached as A before B the
point resolves to A — and when no cached fence contains the point it
returns the neutral result with empty name and null fence type instead of
failing. -/
theorem getGeofence_first_match (g : Geo) (store : Option (List RawFence)) (c : ℚ × ℚ) :
    getGeofence g store c =
      match (store.getD []).find? (fenceContains g c) with
      | some f => { name := f.name, fence_type := some f.fence_type }
      | none => { name := "", fence_type := none } :=
  getGeofenceList_eq_find g c (store.getD [])

/-- C4 counterexample: on the empty raw payload, which carries no
`power_saving_zone_id`, `parseData` still populates the canonical
`power_saving_zone_id` field with the default null; and on a payload whose
`position` carries no `speed`, `parseData` populates `speed` with the
default 0. -/
theorem parseData_populates_defaults :
    (parseData (fun _ => none) (fun _ => none) {}).power_saving_zone_id = some none ∧
    (parseData (fun _ => none) (fun _ => none) { position := some {} }).speed = some 0 := by
  exact ⟨rfl, rfl⟩

/-- C1: for both payload shapes, a carried tracker-state reason whose
lower-cased value is `power_saving` forces the normalized `tracker_state`
to `power_saving`, whatever literal `tracker_state` or `state` field the
payload also carries: in `parseData` the reason is
`tracker_state_reason || state_reason || null`, in `parseChannelData` it
is the `tracker_state_reason` field. -/
theorem power_saving_reason_overrides_state :
    (∀ (bySku byModel : String → Option String) (raw : Raw) (r : String),
      jsOrNull raw.tracker_state_reason raw.state_reason = some r →
      strLower r = "power_saving" →
      (parseData bySku byModel raw).tracker_state = some "power_saving") ∧
    (∀ (storedLat storedLong : Option ℚ) (ga : ℚ → ℚ → Except String RawAddress)
        (raw : Raw) (r : String) (cd : ChanData),
      raw.tracker_state_reason = some r →
      strLower r = "power_saving" →
      parseChannelData storedLat storedLong ga raw = Except.ok cd →
      cd.tracker_state = some "power_saving") := by
  constructor
  · intro bySku byModel raw r h1 h2
    simp only [parseData, h1, h2, if_true]
  · intro sl sg ga raw r cd h1 h2 h3
    have hts : cd.tracker_state =
        (match raw.tracker_state_reason with
          | some rr =>
            if strLower rr = "power_saving" then some "power_saving"
            else raw.tracker_state.map strLower
          | none => raw.tracker_state.map strLower) := by
      rw [parseChannelData] at h3
      cases hp : raw.position with
      | none =>
        rw [hp] at h3
        cases h3
        rfl
      | some p =>
        rw [hp] at h3
        cases hll : p.latlong with
        | none =>
          simp only [hll] at h3
          cases h3
          rfl
        | some ll =>
          simp only [hll] at h3
          by_cases hch : sl ≠ some ll.1 ∨ sg ≠ some ll.2
          · rw [if_pos hch] at h3
            cases hga : ga ll.1 ll.2 with
            | error e => rw [hga] at h3; cases h3
            | ok a =>
              rw [hga] at h3
              cases h3
              rfl
          · rw [if_neg hch] at h3
            cases h3
            rfl
    rw [hts, h1]
    simp [h2]

/-- C1 witness: a poll payload carrying only `state_reason` and a stream
payload carrying only `tracker_state_reason`, both at a mixed-case
power-saving value, normalize to the power-saving state. -/
theorem power_saving_reason_overrides_state_witness :
    (parseData (fun _ => none) (fun _ => none)
        { state_reason := some "POWER_SAVING" }).tracker_state = some "power_saving" ∧
    ({ power_saving_zone := some false, tracker_state := some "power_saving",
       tracker_state_reason := some "power_saving" } : ChanData).tracker_state =
      some "power_saving" := by
  constructor
  · exact power_saving_reason_overrides_state.1 (fun _ => none) (fun _ => none)
      { state_reason := some "POWER_SAVING" } "POWER_SAVING" (by decide) (by decide)
  · exact power_saving_reason_overrides_state.2 none none (fun _ _ => Except.ok {})
      { tracker_state_reason := some "Power_Saving" } "Power_Saving"
      { power_saving_zone := some false, tracker_state := some "power_saving",
        tracker_state_reason := some "power_saving" } rfl (by decide) rfl

/-- C4 amended: every canonical field of `parseData` except `speed` and
`power_saving_zone_id` is populated only when its source field is present
in the raw payload; `power_saving_zone_id` is populated on every payload
(null when the source field is absent or falsy), and `speed` defaults to 0
whenever `position` is present without a `speed` (it stays absent only
when `position` itself is absent). -/
theorem parseData_present_only (bySku byModel : String → Option String) (raw : Raw) :
    (raw.battery_state = none → (parseData bySku byModel raw).battery_state = none) ∧
    (raw.capabilities = none → (parseData bySku byModel raw).capabilities = none) ∧
    (raw.buzzer_control = none → (parseData bySku byModel raw).buzzer_control = none) ∧
    (raw.charging_state = none → (parseData bySku byModel raw).charging_state = none) ∧
    (raw.geofences = none → (parseData bySku byModel raw).geofences = none) ∧
    (raw.hardware.bind RawHardware.battery_level = none →
      (parseData bySku byModel raw).measure_battery = none) ∧
    (raw.led_control = none → (parseData bySku byModel raw).led_control = none) ∧
    (raw.live_tracking = none → (parseData bySku byModel raw).live_tracking = none) ∧
    (raw.model_number = none →
      (parseData bySku byModel raw).model_name = none ∧
      (parseData bySku byModel raw).product_name = none) ∧
    (raw.position.bind RawPosition.altitude = none →
      (parseData bySku byModel raw).altitude = none) ∧
    (raw.position.bind RawPosition.sensor_used = none →
      (parseData bySku byModel raw).location_source = none) ∧
    (raw.position.bind RawPosition.latlong = none →
      (parseData bySku byModel raw).latlong = none) ∧
    (raw.power_saving_zones = none → (parseData bySku byModel raw).power_saving_zones = none) ∧
    (raw.tracker_state = none → raw.state = none → raw.tracker_state_reason = none →
      raw.state_reason = none →
      (parseData bySku byModel raw).tracker_state = none ∧
      (parseData bySku byModel raw).tracker_state_reason = none) ∧
    (raw.position = none → (parseData bySku byModel raw).speed = none) ∧
    (raw.power_saving_zone_id = none →
      (parseData bySku byModel raw).power_saving_zone_id = some none) ∧
    (∀ p, raw.position = some p → p.speed = none →
      (parseData bySku byModel raw).speed = some 0) := by
  refine ⟨?_, ?_, ?_, ?_, ?_, ?_, ?_, ?_, ?_, ?_, ?_, ?_, ?_, ?_, ?_, ?_, ?_⟩
  · intro h; simp [parseData, h]
  · intro h; simp [parseData, h]
  · intro h; simp [parseData, h]
  · intro h; simp [parseData, h]
  · intro h; simp [parseData, h]
  · intro h; simp [parseData, h]
  · intro h; simp [parseData, h]
  · intro h; simp [parseData, h]
  · intro h; simp [parseData, h]
  · intro h; simp [parseData, h]
  · intro h; simp [parseData, h]
  · intro h; simp [parseData, h]
  · intro h; simp [parseData, h]
  · intro h1 h2 h3 h4; simp [parseData, h1, h2, h3, h4, jsOrNull, jsOr]
  · intro h; simp [parseData, h]
  · intro h; simp [parseData, h]
  · intro p hp hs; simp [parseData, hp, hs]

/-- C4 amended witness: the empty payload populates nothing except the
defaulted `power_saving_zone_id`, and a payload with a speedless
`position` gets the default speed 0. -/
theorem parseData_present_only_witness :
    (parseData (fun _ => none) (fun _ => none) {}).battery_state = none ∧
    ((parseData (fun _ => none) (fun _ => none) {}).tracker_state = none ∧
      (parseData (fun _ => none) (fun _ => none) {}).tracker_state_reason = none) ∧
    (parseData (fun _ => none) (fun _ => none) {}).power_saving_zone_id = some none ∧
    (parseData (fun _ => none) (fun _ => none) { position := some {} }).speed = some 0 := by
  refine ⟨?_, ?_, ?_, ?_⟩
  · exact (parseData_present_only (fun _ => none) (fun _ => none) {}).1 rfl
  · exact (parseData_present_only (fun _ => none) (fun _ => none)
      {}).2.2.2.2.2.2.2.2.2.2.2.2.2.1 rfl rfl rfl rfl
  · exact (parseData_present_only (fun _ => none) (fun _ => none)
      {}).2.2.2.2.2.2.2.2.2.2.2.2.2.2.2.1 rfl
  · exact (parseData_present_only (fun _ => none) (fun _ => none)
      { position := some {} }).2.2.2.2.2.2.2.2.2.2.2.2.2.2.2.2 {} rfl rfl

/-- Folding the last-write accumulator from any starting value. -/
theorem foldl_lastWrite (k : String) (w : List (String × CapValue)) :
    ∀ acc : Option CapValue,
      w.foldl (fun a p => if p.1 = k then some p.2 else a) acc =
        match lastWrite w k with
        | some v => some v
        | none => acc := by
  induction w with
  | nil => intro acc; rfl
  | cons p w ih =>
    intro acc
    rw [List.foldl_cons, ih]
    have h : lastWrite (p :: w) k =
        match lastWrite w k with
        | some v => some v
        | none => (if p.1 = k then some p.2 else none) := by
      rw [lastWrite, List.foldl_cons]
      exact ih _
    rw [h]
    rcases hl : lastWrite w k with _ | v
    · by_cases hpk : p.1 = k <;> simp [hpk]
    · simp

/-- A write list applied to a store reads back as the last write per key,
falling back to the store. -/
theorem applyWrites_lookup (w : List (String × CapValue)) (k : String) :
    ∀ st, applyWrites st w k =
      match lastWrite w k with
      | some v => some v
      | none => st k := by
  induction w with
  | nil => intro st; rfl
  | cons p w ih =>
    intro st
    rw [applyWrites, List.foldl_cons]
    have step := ih (setCapabilityValue st p.1 p.2)
    rw [applyWrites] at step
    rw [step]
    have h : lastWrite (p :: w) k =
        match lastWrite w k with
        | some v => some v
        | none => (if p.1 = k then some p.2 else none) := by
      rw [lastWrite, List.foldl_cons]
      exact foldl_lastWrite k w _
    rw [h]
    rcases hl : lastWrite w k with _ | v
    · by_cases hpk : p.1 = k
      · simp [setCapabilityValue, hpk]
      · have hkp : ¬k = p.1 := fun hh => hpk hh.symm
        simp [setCapabilityValue, hpk, hkp]
    · simp

/-- Reapplying any write list leaves the capability store unchanged. -/
theorem applyWrites_reapply (st : String → Option CapValue) (w : List (String × CapValue)) :
    applyWrites (applyWrites st w) w = applyWrites st w := by
  funext k
  have h1 := applyWrites_lookup w k st
  have h2 := applyWrites_lookup w k (applyWrites st w)
  rw [h2, h1]
  rcases hl : lastWrite w k with _ | v <;> simp [hl]

/-- C5 counterexample: with the `speed` capability declared and its stored
value already equal to the snapshot value, `syncCapabilityValues` still
issues the `setCapabilityValue` write for it — the write list is computed
without consulting the stored values at all, so the second application of
the same snapshot issues the same writes again, not zero. -/
theorem syncCapabilityValues_writes_equal_value :
    ((fun k => if k = "speed" then some (CapValue.num 5) else none) : String → Option CapValue)
        "speed" = some (CapValue.num 5) ∧
    syncCapabilityValues ["speed"] [("speed", CapValue.num 5)] = [("speed", CapValue.num 5)] := by
  exact ⟨rfl, rfl⟩

/-- C5 amended: `syncCapabilityValues` issues exactly one write per
snapshot entry whose capability the device declares, independent of the
stored values; applying the same write list a second time changes no
stored capability value (state idempotence), though the writes themselves
are reissued. -/
theorem syncCapabilityValues_idempotent (caps : List String)
    (data : List (String × CapValue)) (st : String → Option CapValue) :
    (∀ p, p ∈ syncCapabilityValues caps data ↔ p ∈ data ∧ caps.contains p.1 = true) ∧
    applyWrites (applyWrites st (syncCapabilityValues caps data))
        (syncCapabilityValues caps data) =
      applyWrites st (syncCapabilityValues caps data) := by
  constructor
  · intro p
    simp [syncCapabilityValues, List.mem_filter]
  · exact applyWrites_reapply st (syncCapabilityValues caps data)

/-- C5 witness: at a concrete snapshot, the declared entry is in the issued
write list and reapplication leaves the concrete store unchanged. -/
theorem syncCapabilityValues_idempotent_witness :
    ("speed", CapValue.num 5) ∈ syncCapabilityValues ["speed"] [("speed", CapValue.num 5)] ∧
    applyWrites (applyWrites (fun _ => none)
          (syncCapabilityValues ["speed"] [("speed", CapValue.num 5)]))
        (syncCapabilityValues ["speed"] [("speed", CapValue.num 5)]) =
      applyWrites (fun _ => none) (syncCapabilityValues ["speed"] [("speed", CapValue.num 5)]) := by
  constructor
  · exact ((syncCapabilityValues_idempotent ["speed"] [("speed", CapValue.num 5)]
      (fun _ => none)).1 ("speed", CapValue.num 5)).mpr ⟨by simp, by decide⟩
  · exact (syncCapabilityValues_idempotent ["speed"] [("speed", CapValue.num 5)]
      (fun _ => none)).2

/-- C6: `handleSyncData` is a total function of the payload and the sync
dependencies — no exception leaves it; a successful run of the guarded
reconciliation pipeline marks the device available, and a pipeline
rejection marks the device unavailable with exactly the message of the
rejection; a blank payload does neither. -/
theorem handleSyncData_availability (dp : SyncDeps) (r : Raw) :
    (∀ pr, syncPipeline dp r = Except.ok pr →
      handleSyncData dp (some r) = AvailAction.setAvailable) ∧
    (∀ m, syncPipeline dp r = Except.error m →
      handleSyncData dp (some r) = AvailAction.setUnavailable m) ∧
    handleSyncData dp none = AvailAction.idle := by
  refine ⟨?_, ?_, rfl⟩
  · intro pr h
    simp [handleSyncData, h]
  · intro m h
    simp [handleSyncData, h]

/-- C6 witness: with every platform promise resolving the empty payload
ends in `setAvailable`; with a rejecting `driver.ready` the same payload
ends in `setUnavailable` carrying that message. -/
theorem handleSyncData_availability_witness :
    handleSyncData syncDeps0 (some {}) = AvailAction.setAvailable ∧
    handleSyncData syncDepsFail (some {}) = AvailAction.setUnavailable "down" := by
  constructor
  · exact (handleSyncData_availability syncDeps0 {}).1 _ rfl
  · exact (handleSyncData_availability syncDepsFail {}).2.1 "down" rfl

/-- C8 counterexample: in the historical TrackerDevice enrichment
(`src/unnamed/part_005`), a failed reverse-geocode lookup at changed
coordinates aborts the whole enrichment — the error propagates and no
geofence or coordinate field is produced — contrary to the claim that the
enriched output merely lacks the address field. -/
theorem processDataLegacy_propagates_address_error :
    processDataLegacy procDepsAddrFail { latlong := some (1, 2) } = Except.error "boom" := by
  rfl

/-- C8 amended (the current `lib/Device.js` enrichment): when the
coordinates changed from the stored capability values and the address
lookup fails, the enriched record lacks the address field while the
geofence fields and the new coordinates are still resolved and present;
`processData` is total, so no exception leaves the enrichment step. -/
theorem processData_address_failure_graceful (dp : ProcDeps) (d : PState)
    (ll : ℚ × ℚ) (err : String)
    (h1 : d.latlong = some ll)
    (h2 : dp.storedLat ≠ some ll.1 ∨ dp.storedLong ≠ some ll.2)
    (h3 : dp.getAddress ll.1 ll.2 = Except.error err) :
    (processData dp d).data.address = none ∧
    (processData dp d).data.geofence =
      some (getGeofence dp.geo (processData dp d).geofenceStoreAfter ll).name ∧
    (processData dp d).data.in_geofence =
      some (filledS (some (getGeofence dp.geo (processData dp d).geofenceStoreAfter ll).name)) ∧
    (processData dp d).data.geofence_type =
      some (getGeofence dp.geo (processData dp d).geofenceStoreAfter ll).fence_type ∧
    (processData dp d).data.latitude = some ll.1 ∧
    (processData dp d).data.longitude = some ll.2 := by
  refine ⟨?_, ?_, ?_, ?_, ?_, ?_⟩ <;> simp [processData, h1, h2, h3]

/-- C8 witness: a concrete failing address lookup at changed coordinates
still yields the resolved (neutral) geofence fields and coordinates, with
no address. -/
theorem processData_address_failure_graceful_witness :
    (processData procDepsAddrFail { latlong := some (1, 2) }).data.address = none ∧
    (processData procDepsAddrFail { latlong := some (1, 2) }).data.latitude = some 1 ∧
    (processData procDepsAddrFail { latlong := some (1, 2) }).data.longitude = some 2 := by
  refine ⟨?_, ?_, ?_⟩
  · exact (processData_address_failure_graceful procDepsAddrFail
      { latlong := some (1, 2) } (1, 2) "boom" rfl (Or.inl (by decide)) rfl).1
  · exact (processData_address_failure_graceful procDepsAddrFail
      { latlong := some (1, 2) } (1, 2) "boom" rfl (Or.inl (by decide)) rfl).2.2.2.2.1
  · exact (processData_address_failure_graceful procDepsAddrFail
      { latlong := some (1, 2) } (1, 2) "boom" rfl (Or.inl (by decide)) rfl).2.2.2.2.2

/-- C9 counterexample: a snapshot with literal state `operational` and
reason `out_of_battery` clears the warning in `lib/Device.js` (the key is
the effective state, not the reason), and the reason `not_reporting`
clears the warning in `lib/TrackerDevice.js` (its reason list omits it) —
both contradict setting the warning exactly when the reason is one of the
three degraded reasons. -/
theorem syncWarning_not_keyed_on_reason :
    syncWarning (some "operational") (some "out_of_battery") = WarnAction.unset ∧
    syncWarningTracker (some "not_reporting") = WarnAction.unset ∧
    syncWarning none none = WarnAction.noop := by
  exact ⟨rfl, rfl, rfl⟩

/-- C9 amended: in `lib/Device.js` the warning is keyed by the effective
state — `tracker_state`, falling back to `tracker_state_reason` — set when
it is one of `not_reporting`, `out_of_battery`, `shutdown_by_user`,
cleared when it is non-blank and outside that list, and left untouched
when both fields are blank; in `lib/TrackerDevice.js` the warning is keyed
by `tracker_state_reason` with the two-element list `out_of_battery`,
`shutdown_by_user`, every other case clearing the warning. -/
theorem syncWarning_characterization :
    (∀ ts tr s, jsOrNull ts tr = some s →
      syncWarning ts tr =
        (if warningReasons.contains s then WarnAction.set s else WarnAction.unset)) ∧
    (∀ ts tr, jsOrNull ts tr = none → syncWarning ts tr = WarnAction.noop) ∧
    (∀ r, r ≠ "" →
      syncWarningTracker (some r) =
        (if ["out_of_battery", "shutdown_by_user"].contains r then WarnAction.set r
         else WarnAction.unset)) ∧
    syncWarningTracker (some "") = WarnAction.unset ∧
    syncWarningTracker none = WarnAction.unset := by
  refine ⟨?_, ?_, ?_, rfl, rfl⟩
  · intro ts tr s h
    rw [syncWarning, h]
  · intro ts tr h
    rw [syncWarning, h]
  · intro r h
    rw [syncWarningTracker]
    simp [h]

/-- C9 amended witness: the effective-state key at concrete inputs — a
bare `not_reporting` state sets the warning keyed by the state, and a
filled reason drives the TrackerDevice variant. -/
theorem syncWarning_characterization_witness :
    syncWarning (some "not_reporting") none = WarnAction.set "not_reporting" ∧
    syncWarningTracker (some "out_of_battery") = WarnAction.set "out_of_battery" := by
  constructor
  · have h := syncWarning_characterization.1 (some "not_reporting") none
      "not_reporting" (by decide)
    simpa using h
  · have h := syncWarning_characterization.2.2.1 "out_of_battery" (by decide)
    simpa using h

/-- Membership in a JavaScript-object insertion: the new pair, or an
untouched old pair. -/
theorem objInsert_mem {m : List (String × String)} {k v : String} {p : String × String}
    (h : p ∈ objInsert m k v) : p ∈ m ∨ p = (k, v) := by
  rw [objInsert] at h
  split at h
  · rcases List.mem_map.mp h with ⟨q, hq, he⟩
    by_cases hqk : q.1 = k
    · right
      rw [if_pos hqk] at he
      exact he.symm
    · left
      rw [if_neg hqk] at he
      rwa [he] at hq
  · rcases List.mem_append.mp h with h1 | h2
    · exact Or.inl h1
    · right
      simpa using h2

/-- The inserted pair is always present after a JavaScript-object
insertion. -/
theorem objInsert_self (m : List (String × String)) (k v : String) :
    (k, v) ∈ objInsert m k v := by
  rw [objInsert]
  split
  · next h =>
    rcases List.any_eq_true.mp h with ⟨q, hq, hk⟩
    exact List.mem_map.mpr ⟨q, hq, by simp [of_decide_eq_true hk]⟩
  · exact List.mem_append.mpr (Or.inr (by simp))

/-- A key present before a JavaScript-object insertion is still present
after it. -/
theorem objInsert_key_preserved {m : List (String × String)} {k' : String}
    (h : ∃ v', (k', v') ∈ m) (k v : String) :
    ∃ v', (k', v') ∈ objInsert m k v := by
  by_cases hk : k' = k
  · exact ⟨v, hk ▸ objInsert_self m k v⟩
  · rcases h with ⟨v', hv⟩
    refine ⟨v', ?_⟩
    rw [objInsert]
    split
    · exact List.mem_map.mpr ⟨(k', v'), hv, by simp [hk]⟩
    · exact List.mem_append.mpr (Or.inl hv)

/-- Soundness of the zone-cache fold: every stored pair not inherited from
the accumulator comes from a named payload entry, as id and trimmed
name. -/
theorem pszFold_sound (l : List RawZone) :
    ∀ (acc : List (String × String)) (p : String × String),
      p ∈ l.foldl (fun zones z =>
          if blankS (some z.name) then zones else objInsert zones z._id (strTrim z.name)) acc →
      p ∈ acc ∨ ∃ z, z ∈ l ∧ z.name ≠ "" ∧ p.1 = z._id ∧ p.2 = strTrim z.name := by
  induction l with
  | nil =>
    intro acc p h
    exact Or.inl h
  | cons z l ih =>
    intro acc p h
    rw [List.foldl_cons] at h
    rcases ih _ p h with h1 | ⟨z', hz', hn, ha, hb⟩
    · by_cases hb : blankS (some z.name) = true
      · rw [if_pos hb] at h1
        exact Or.inl h1
      · rw [if_neg hb] at h1
        rcases objInsert_mem h1 with h2 | h2
        · exact Or.inl h2
        · refine Or.inr ⟨z, List.mem_cons_self z l, ?_, ?_, ?_⟩
          · simpa [blankS] using hb
          · rw [h2]
          · rw [h2]
    · exact Or.inr ⟨z', List.mem_cons_of_mem z hz', hn, ha, hb⟩

/-- A key present in the accumulator survives the zone-cache fold. -/
theorem pszFold_key_preserved (k : String) (l : List RawZone) :
    ∀ acc, (∃ v, (k, v) ∈ acc) →
      ∃ v, (k, v) ∈ l.foldl (fun zones z =>
        if blankS (some z.name) then zones else objInsert zones z._id (strTrim z.name)) acc := by
  induction l with
  | nil =>
    intro acc h
    exact h
  | cons w l ih =>
    intro acc h
    rw [List.foldl_cons]
    apply ih
    by_cases hb : blankS (some w.name) = true
    · rw [if_pos hb]
      exact h
    · rw [if_neg hb]
      exact objInsert_key_preserved h _ _

/-- Completeness of the zone-cache fold: the id of every named payload
entry is a stored key. -/
theorem pszFold_complete (l : List RawZone) :
    ∀ (acc : List (String × String)) (z : RawZone), z ∈ l → z.name ≠ "" →
      ∃ v, (z._id, v) ∈ l.foldl (fun zones z =>
        if blankS (some z.name) then zones else objInsert zones z._id (strTrim z.name)) acc := by
  induction l with
  | nil =>
    intro acc z hz
    cases hz
  | cons w l ih =>
    intro acc z hz hn
    rw [List.foldl_cons]
    rcases List.mem_cons.mp hz with rfl | hz'
    · have hb : blankS (some z.name) = false := by simp [blankS, hn]
      rw [hb]
      simp only [Bool.false_eq_true, if_false]
      exact pszFold_key_preserved z._id l _ ⟨strTrim z.name, objInsert_self acc z._id (strTrim z.name)⟩
    · exact ih _ z hz' hn

/-- C7 counterexample: a Power Saving Zone entry that is inactive but
named is stored by `savePowerSavingZones` — the zone cache filters only on
the name, never on `active`, contrary to the claim that no inactive entry
is ever stored. -/
theorem savePowerSavingZones_keeps_inactive :
    savePowerSavingZones (some [{ _id := "z1", name := "Home", active := false }]) =
      [("z1", "Home")] := by
  rfl

/-- C7 amended: on every sync payload carrying a cache section the
corresponding store is replaced wholesale by a value computed from that
payload alone. The geofence cache holds exactly the normalized images
(name trimmed, shape and fence type lower-cased) of the payload entries
that are active with a non-empty name; the zone cache holds only pairs
built from payload entries with a non-empty name (id and trimmed name,
with no filter on `active`), and the id of every named payload entry is
stored. -/
theorem cache_replacement_characterization :
    (∀ (l : List RawFence) (g : RawFence),
      g ∈ saveGeofences (some l) ↔
        ∃ e, e ∈ l ∧ e.active = true ∧ e.name ≠ "" ∧ g = normalizeFence e) ∧
    (∀ (dp : ProcDeps) (d : PState) (payload : Option (List RawFence)),
      d.geofences = some payload →
      (processData dp d).geofenceStoreAfter = some (saveGeofences payload)) ∧
    (∀ (dp : ProcDeps) (d : PState) (payload : Option (List RawZone)),
      d.power_saving_zones = some payload →
      (processData dp d).pszStoreAfter = some (savePowerSavingZones payload)) ∧
    (∀ (l : List RawZone) (p : String × String),
      p ∈ savePowerSavingZones (some l) →
      ∃ z, z ∈ l ∧ z.name ≠ "" ∧ p.1 = z._id ∧ p.2 = strTrim z.name) ∧
    (∀ (l : List RawZone) (z : RawZone), z ∈ l → z.name ≠ "" →
      ∃ v, (z._id, v) ∈ savePowerSavingZones (some l)) := by
  refine ⟨?_, ?_, ?_, ?_, ?_⟩
  · intro l g
    cases l with
    | nil =>
      constructor
      · intro h
        cases h
      · rintro ⟨e, he, _⟩
        cases he
    | cons a t =>
      have hs : saveGeofences (some (a :: t)) =
          ((a :: t).filter (fun e => e.active && filledS (some e.name))).map normalizeFence := by
        simp [saveGeofences]
      rw [hs]
      constructor
      · intro h
        rcases List.mem_map.mp h with ⟨e, hef, hge⟩
        rcases List.mem_filter.mp hef with ⟨hel, hcond⟩
        rw [Bool.and_eq_true] at hcond
        refine ⟨e, hel, hcond.1, ?_, hge.symm⟩
        have h2 := hcond.2
        simpa [filledS, blankS] using h2
      · rintro ⟨e, hel, hact, hname, hge⟩
        rw [hge]
        refine List.mem_map.mpr ⟨e, List.mem_filter.mpr ⟨hel, ?_⟩, rfl⟩
        simp [hact, filledS, blankS, hname]
  · intro dp d payload h
    rcases hll : d.latlong with _ | ll
    · simp [processData, h, hll]
    · by_cases hch : dp.storedLat ≠ some ll.1 ∨ dp.storedLong ≠ some ll.2
      · simp [processData, h, hll, hch]
      · simp [processData, h, hll, hch]
  · intro dp d payload h
    rcases hll : d.latlong with _ | ll
    · simp [processData, h, hll]
    · by_cases hch : dp.storedLat ≠ some ll.1 ∨ dp.storedLong ≠ some ll.2
      · simp [processData, h, hll, hch]
      · simp [processData, h, hll, hch]
  · intro l p h
    cases l with
    | nil => cases h
    | cons a t =>
      have hs : savePowerSavingZones (some (a :: t)) =
          (a :: t).foldl (fun zones z =>
            if blankS (some z.name) then zones
            else objInsert zones z._id (strTrim z.name)) [] := by
        simp [savePowerSavingZones]
      rw [hs] at h
      rcases pszFold_sound (a :: t) [] p h with h1 | h1
      · cases h1
      · exact h1
  · intro l z hz hn
    cases l with
    | nil => cases hz
    | cons a t =>
      have hs : savePowerSavingZones (some (a :: t)) =
          (a :: t).foldl (fun zones z =>
            if blankS (some z.name) then zones
            else objInsert zones z._id (strTrim z.name)) [] := by
        simp [savePowerSavingZones]
      rw [hs]
      exact pszFold_complete (a :: t) [] z hz hn

/-- C7 witness: a concrete active named fence is stored normalized, and
concrete payload sections replace both stores with the value computed from
the payload alone. -/
theorem cache_replacement_characterization_witness :
    normalizeFence { name := " Yard ", shape := "CIRCLE", fence_type := "SAFE" } ∈
      saveGeofences (some [{ name := " Yard ", shape := "CIRCLE", fence_type := "SAFE" }]) ∧
    (processData procDeps0 { geofences := some (some []) }).geofenceStoreAfter =
      some (saveGeofences (some [])) ∧
    (processData procDeps0 { power_saving_zones := some none }).pszStoreAfter =
      some (savePowerSavingZones none) := by
  refine ⟨?_, ?_, ?_⟩
  · exact (cache_replacement_characterization.1
      [{ name := " Yard ", shape := "CIRCLE", fence_type := "SAFE" }] _).mpr
      ⟨{ name := " Yard ", shape := "CIRCLE", fence_type := "SAFE" },
        by simp, rfl, by decide, rfl⟩
  · exact cache_replacement_characterization.2.1 procDeps0
      { geofences := some (some []) } (some []) rfl
  · exact cache_replacement_characterization.2.2.1 procDeps0
      { power_saving_zones := some none } none rfl

end Tractive
